import Mathlib

/-!
Verification of the Tiercade test-results analyzer
(`analyze_test_results.py`) against its specification.

Shallow embedding conventions:
* Python floats are modelled as `ℚ` (the script only adds, divides and
  multiplies values read from JSON, so exact rational arithmetic models the
  intent; float formatting is modelled by a fixed round-half-up rule).
* Python dicts used as accumulation maps (`all_prompts`, `by_scenario`) are
  modelled as insertion-ordered association lists, matching CPython's
  guaranteed dict iteration order.
* JSON field access via `dict.get(k, default)` is modelled with `Option`
  fields and `Option.getD`.
* `list.sort(key=..., reverse=True)` / `sorted(...)` are stable sorts; they
  are modelled with `List.insertionSort`, which is stable, using the
  corresponding key relation (a stable sort for a total preorder is unique,
  so any stable implementation is observationally the same).
-/

/-! ### Numeric formatting helpers (Python format specifiers) -/

/-- Zero-pad a digit string on the left to `d` characters. -/
def padZeros (d : Nat) (s : String) : String :=
  String.mk (List.replicate (d - s.length) '0') ++ s

/-- Model of Python's fixed-point format specifier of the shape seen in
the script (one to three decimal places, and zero places).  CPython formats
IEEE doubles with round-half-even; on exact rationals we use round-half-up,
computed on the numerator and denominator directly as
`(2 * num * 10^d + den).fdiv (2 * den)`, the floor of `q * 10^d + 1/2`.
The two rules agree away from representation boundaries. -/
def fmtF (d : Nat) (q : ℚ) : String :=
  let n : Int := (2 * q.num * (10 : Int) ^ d + (q.den : Int)).fdiv (2 * (q.den : Int))
  let sign := if n < 0 then "-" else ""
  let a := n.natAbs
  if d = 0 then sign ++ toString a
  else sign ++ toString (a / 10 ^ d) ++ "." ++ padZeros d (toString (a % 10 ^ d))

/-- Insert a comma after every third character (input is the reversed digit
list); helper for Python's thousands-separator format. -/
def commaChunks : List Char → List Char
  | a :: b :: c :: d :: rest => a :: b :: c :: ',' :: commaChunks (d :: rest)
  | l => l

/-- Model of Python's thousands-separator integer format. -/
def commaFmt (n : Nat) : String :=
  String.mk ((commaChunks (toString n).data.reverse).reverse)

/-- Model of Python's left-align pad-to-width format. -/
def padRightTo (w : Nat) (s : String) : String :=
  s ++ String.mk (List.replicate (w - s.length) ' ')

/-- Model of Python's right-align pad-to-width format. -/
def padLeftTo (w : Nat) (s : String) : String :=
  String.mk (List.replicate (w - s.length) ' ') ++ s

/-! ### Data model: raw suite reports (external JSON input)

`RawSuiteReport` is the parsed JSON object; every field is optional and
numeric fields default to 0 at access sites, exactly as the script's
`report.get(key, 0)` calls do. -/

/-- The `overallStats` sub-object of one `aggregateResults` row. -/
structure RawStats where
  passAtNRate : Option ℚ := none
  meanDupRate : Option ℚ := none
  stdevDupRate : Option ℚ := none
  jsonStrictRate : Option ℚ := none
  insufficientRate : Option ℚ := none
  formatErrorRate : Option ℚ := none
  meanQualityScore : Option ℚ := none
  deriving DecidableEq

/-- One row of `aggregateResults`. -/
structure RawPromptAgg where
  promptId : Option String := none
  promptName : Option String := none
  overallStats : RawStats := {}
  totalRuns : Option Nat := none
  deriving DecidableEq

/-- One scored entry of a ranking list.  The script reads `promptName` and
`score` directly (a missing `score` key would raise in CPython; the claims
never exercise that, and the model keeps `score` as a plain field). -/
structure RankEntry where
  promptName : Option String := none
  score : ℚ := 0
  deriving DecidableEq

/-- The `rankings` object; an absent `rankings` key behaves exactly like all
four lists being empty (`rankings.get(kind, [])`), which this model folds in. -/
structure Rankings where
  byPassRate : List RankEntry := []
  byQuality : List RankEntry := []
  bySpeed : List RankEntry := []
  byConsistency : List RankEntry := []
  deriving DecidableEq

/-- The `environment` object; `none` models an absent or empty dict (both are
falsy in the script's `if env:` test). `hasTopP` collapses Python truthiness. -/
structure EnvInfo where
  osVersion : Option String := none
  hasTopP : Bool := false
  buildDate : Option String := none
  deriving DecidableEq

/-- A parsed suite report JSON object. -/
structure RawSuiteReport where
  totalRuns : Option Nat := none
  successfulRuns : Option Nat := none
  failedRuns : Option Nat := none
  totalDuration : Option ℚ := none
  suiteName : Option String := none
  rankings : Rankings := {}
  aggregateResults : List RawPromptAgg := []
  environment : Option EnvInfo := none
  deriving DecidableEq

/-! ### Derived records -/

/-- One row of `prompt_analysis` (percentage-scaled prompt statistics). -/
structure PromptStats where
  promptId : Option String
  promptName : Option String
  passAtNRate : ℚ
  meanDupRate : ℚ
  stdevDupRate : ℚ
  jsonStrictRate : ℚ
  insufficientRate : ℚ
  formatErrorRate : ℚ
  meanQualityScore : ℚ
  totalRuns : Nat
  deriving DecidableEq

/-- The four truncated ranking lists stored as `top_prompts`. -/
structure TopPrompts where
  byPassRate : List RankEntry
  byQuality : List RankEntry
  bySpeed : List RankEntry
  byConsistency : List RankEntry
  deriving DecidableEq

/-- The canonical per-suite analysis record returned by `analyze_suite`. -/
structure SuiteAnalysis where
  suite_id : String
  suite_name : String
  total_runs : Nat
  successful_runs : Nat
  failed_runs : Nat
  success_rate : ℚ
  total_duration : ℚ
  avg_duration_per_run : ℚ
  top_prompts : TopPrompts
  prompt_analysis : List PromptStats
  environment : Option EnvInfo
  deriving DecidableEq

/-! ### Suite Analyzer (`analyze_suite`) -/

/-- Builds one `prompt_analysis` row from one `aggregateResults` row: rate
fields are rescaled from fractions to percentages (`* 100`), quality score and
run count are passed through, absent values default to 0. -/
def toPromptStats (agg : RawPromptAgg) : PromptStats :=
  { promptId := agg.promptId
    promptName := agg.promptName
    passAtNRate := agg.overallStats.passAtNRate.getD 0 * 100
    meanDupRate := agg.overallStats.meanDupRate.getD 0 * 100
    stdevDupRate := agg.overallStats.stdevDupRate.getD 0 * 100
    jsonStrictRate := agg.overallStats.jsonStrictRate.getD 0 * 100
    insufficientRate := agg.overallStats.insufficientRate.getD 0 * 100
    formatErrorRate := agg.overallStats.formatErrorRate.getD 0 * 100
    meanQualityScore := agg.overallStats.meanQualityScore.getD 0
    totalRuns := agg.totalRuns.getD 0 }

/-- Stable descending sort by a rational key: model of
`list.sort(key=..., reverse=True)`. -/
def sortByDesc {α : Type} (key : α → ℚ) (l : List α) : List α :=
  l.insertionSort (fun a b => key b ≤ key a)

/-- Stable ascending sort by a rational key: model of `sorted(..., key=...)`. -/
def sortByAsc {α : Type} (key : α → ℚ) (l : List α) : List α :=
  l.insertionSort (fun a b => key a ≤ key b)

/-- Model of `analyze_suite(suite_id, report)`. -/
def analyze_suite (suite_id : String) (report : RawSuiteReport) : SuiteAnalysis :=
  let total_runs := report.totalRuns.getD 0
  let successful_runs := report.successfulRuns.getD 0
  let failed_runs := report.failedRuns.getD 0
  let total_duration := report.totalDuration.getD 0
  let success_rate : ℚ := ((successful_runs : ℚ) / ((max 1 total_runs : Nat) : ℚ)) * 100
  let avg_duration : ℚ := total_duration / ((max 1 total_runs : Nat) : ℚ)
  { suite_id := suite_id
    suite_name := report.suiteName.getD suite_id
    total_runs := total_runs
    successful_runs := successful_runs
    failed_runs := failed_runs
    success_rate := success_rate
    total_duration := total_duration
    avg_duration_per_run := avg_duration
    top_prompts :=
      { byPassRate := report.rankings.byPassRate.take 3
        byQuality := report.rankings.byQuality.take 3
        bySpeed := report.rankings.bySpeed.take 3
        byConsistency := report.rankings.byConsistency.take 3 }
    prompt_analysis := sortByDesc (fun p => p.passAtNRate) (report.aggregateResults.map toPromptStats)
    environment := report.environment }

theorem analyze_suite_success_rate (sid : String) (r : RawSuiteReport) :
    (analyze_suite sid r).success_rate =
      ((r.successfulRuns.getD 0 : ℚ) / ((max 1 (r.totalRuns.getD 0) : Nat) : ℚ)) * 100 := rfl

theorem analyze_suite_prompt_analysis (sid : String) (r : RawSuiteReport) :
    (analyze_suite sid r).prompt_analysis =
      sortByDesc (fun p => p.passAtNRate) (r.aggregateResults.map toPromptStats) := rfl

/-! ### Stability of the sorts -/

theorem filter_orderedInsert_key {α : Type} (r : α → α → Prop) [DecidableRel r]
    (p : α → Bool) (x : α) (hx : p x = true → ∀ b, ¬ r x b → p b = false) :
    ∀ l : List α, (l.orderedInsert r x).filter p =
      if p x then x :: l.filter p else l.filter p := by
  intro l
  induction l with
  | nil =>
      simp only [List.orderedInsert, List.filter]
      cases hpx : p x <;> simp [hpx]
  | cons b l ih =>
      simp only [List.orderedInsert]
      by_cases h : r x b
      · simp only [if_pos h, List.filter]
        cases hpx : p x <;> simp [hpx]
      · simp only [if_neg h, List.filter_cons, ih]
        cases hpx : p x
        · rfl
        · rw [hx hpx b h]
          simp

theorem filter_insertionSort_key {α : Type} (r : α → α → Prop) [DecidableRel r]
    (p : α → Bool) (h : ∀ x, p x = true → ∀ b, ¬ r x b → p b = false) :
    ∀ l : List α, (l.insertionSort r).filter p = l.filter p := by
  intro l
  induction l with
  | nil => rfl
  | cons a l ih =>
      simp only [List.insertionSort]
      rw [filter_orderedInsert_key r p a (h a), ih]
      cases hpa : p a <;> simp [List.filter_cons, hpa]

theorem sortByDesc_pairwise {α : Type} (key : α → ℚ) (l : List α) :
    (sortByDesc key l).Pairwise (fun a b => key b ≤ key a) := by
  haveI : IsTotal α (fun a b => key b ≤ key a) := ⟨fun a b => le_total (key b) (key a)⟩
  haveI : IsTrans α (fun a b => key b ≤ key a) := ⟨fun _ _ _ hab hbc => le_trans hbc hab⟩
  exact List.sorted_insertionSort _ l

theorem sortByDesc_filter_eq {α : Type} (key : α → ℚ) (l : List α) (q : ℚ) :
    (sortByDesc key l).filter (fun e => decide (key e = q)) =
      l.filter (fun e => decide (key e = q)) := by
  apply filter_insertionSort_key
  intro x hx b hb
  have hxq : key x = q := of_decide_eq_true hx
  have : key x < key b := lt_of_not_le hb
  have : key b ≠ q := by rw [← hxq]; exact (ne_of_gt this)
  simpa using this

theorem sortByAsc_pairwise {α : Type} (key : α → ℚ) (l : List α) :
    (sortByAsc key l).Pairwise (fun a b => key a ≤ key b) := by
  haveI : IsTotal α (fun a b : α => key a ≤ key b) := ⟨fun a b => le_total (key a) (key b)⟩
  haveI : IsTrans α (fun a b : α => key a ≤ key b) := ⟨fun _ _ _ hab hbc => le_trans hab hbc⟩
  exact List.sorted_insertionSort _ l

theorem sortByAsc_filter_eq {α : Type} (key : α → ℚ) (l : List α) (q : ℚ) :
    (sortByAsc key l).filter (fun e => decide (key e = q)) =
      l.filter (fun e => decide (key e = q)) := by
  apply filter_insertionSort_key
  intro x hx b hb
  have hxq : key x = q := of_decide_eq_true hx
  have : key b < key x := lt_of_not_le hb
  have : key b ≠ q := by rw [← hxq]; exact (ne_of_lt this)
  simpa using this

/-! ### Claim C5 -/

/-- Claim C5: for every raw suite report, `prompt_analysis` is sorted in
descending order of `passAtNRate`, and the sort is stable: for every key
value, the rows carrying that key appear in the same relative order as in the
row list built from `aggregateResults` in input order. -/
theorem C5_prompt_analysis_sorted_stable (sid : String) (r : RawSuiteReport) :
    ((analyze_suite sid r).prompt_analysis).Pairwise
        (fun a b => b.passAtNRate ≤ a.passAtNRate) ∧
      ∀ q : ℚ,
        ((analyze_suite sid r).prompt_analysis).filter
            (fun p => decide (p.passAtNRate = q)) =
          (r.aggregateResults.map toPromptStats).filter
            (fun p => decide (p.passAtNRate = q)) := by
  rw [analyze_suite_prompt_analysis]
  exact ⟨sortByDesc_pairwise _ _, fun q => sortByDesc_filter_eq _ _ q⟩

/-! ### Claim C1 -/

/-- Claim C1 counterexample: the raw report having only `successfulRuns = 5`
(every other field absent, so `totalRuns` defaults to 0) is a valid input for
which `analyze_suite` produces `successRate = 500`, violating both
`successRate ≤ 100` and `totalRuns = 0 → successRate = 0`. -/
theorem C1_counterexample :
    (analyze_suite "s" { successfulRuns := some 5 }).success_rate = 500 ∧
      ¬ (analyze_suite "s" { successfulRuns := some 5 }).success_rate ≤ 100 ∧
      ({ successfulRuns := some 5 : RawSuiteReport }).totalRuns.getD 0 = 0 ∧
      (analyze_suite "s" { successfulRuns := some 5 }).success_rate ≠ 0 := by
  have h : (analyze_suite "s" { successfulRuns := some 5 }).success_rate = 500 := by
    rw [analyze_suite_success_rate]
    norm_num [Option.getD]
  refine ⟨h, by rw [h]; norm_num, rfl, by rw [h]; norm_num⟩

/-- Claim C1 (amended): for every raw suite report whose defaulted
`successfulRuns` does not exceed its defaulted `totalRuns`, the success rate
satisfies `0 ≤ successRate ≤ 100`, and `successRate = 0` exactly when
`totalRuns = 0` or `successfulRuns = 0`. -/
theorem C1_success_rate_bounds (sid : String) (r : RawSuiteReport)
    (h : r.successfulRuns.getD 0 ≤ r.totalRuns.getD 0) :
    0 ≤ (analyze_suite sid r).success_rate ∧
      (analyze_suite sid r).success_rate ≤ 100 ∧
      ((analyze_suite sid r).success_rate = 0 ↔
        r.totalRuns.getD 0 = 0 ∨ r.successfulRuns.getD 0 = 0) := by
  rw [analyze_suite_success_rate]
  set s : Nat := r.successfulRuns.getD 0 with hs
  set t : Nat := r.totalRuns.getD 0 with ht
  have hden : (0 : ℚ) < ((max 1 t : Nat) : ℚ) := by
    have : (1 : Nat) ≤ max 1 t := le_max_left 1 t
    exact_mod_cast Nat.lt_of_lt_of_le Nat.zero_lt_one this
  refine ⟨by positivity, ?_, ?_⟩
  · have hst : (s : ℚ) ≤ ((max 1 t : Nat) : ℚ) := by
      exact_mod_cast le_trans h (le_max_right 1 t)
    have h1 : (s : ℚ) / ((max 1 t : Nat) : ℚ) ≤ 1 := by
      rw [div_le_one hden]; exact hst
    calc (s : ℚ) / ((max 1 t : Nat) : ℚ) * 100 ≤ 1 * 100 := by
          exact mul_le_mul_of_nonneg_right h1 (by norm_num)
      _ = 100 := by norm_num
  · constructor
    · intro h0
      have : (s : ℚ) = 0 := by
        rcases mul_eq_zero.mp h0 with h1 | h1
        · rcases div_eq_zero_iff.mp h1 with h2 | h2
          · exact h2
          · exact absurd h2 (ne_of_gt hden)
        · norm_num at h1
      exact Or.inr (by exact_mod_cast this)
    · intro h0
      have hs0 : s = 0 := by
        rcases h0 with h1 | h1
        · omega
        · exact h1
      rw [hs0]
      norm_num

/-- Witness for the amended claim C1, at the spec's own example
(`totalRuns = 10`, `successfulRuns = 7`). -/
theorem C1_success_rate_bounds_witness :
    (({ totalRuns := some 10, successfulRuns := some 7 } :
        RawSuiteReport).successfulRuns.getD 0 ≤
      ({ totalRuns := some 10, successfulRuns := some 7 } :
        RawSuiteReport).totalRuns.getD 0) ∧
      (0 ≤ (analyze_suite "s" { totalRuns := some 10, successfulRuns := some 7 }).success_rate ∧
        (analyze_suite "s" { totalRuns := some 10, successfulRuns := some 7 }).success_rate ≤ 100 ∧
        ((analyze_suite "s" { totalRuns := some 10, successfulRuns := some 7 }).success_rate = 0 ↔
          ({ totalRuns := some 10, successfulRuns := some 7 } :
            RawSuiteReport).totalRuns.getD 0 = 0 ∨
          ({ totalRuns := some 10, successfulRuns := some 7 } :
            RawSuiteReport).successfulRuns.getD 0 = 0)) :=
  ⟨by decide, C1_success_rate_bounds "s" _ (by decide)⟩

/-! ### Cross-Suite Aggregator (the `all_prompts` accumulation in
`generate_markdown_report`)

The Python dict is modelled as an insertion-ordered association list; new
keys are appended at the end, existing keys are updated in place, and
iteration order is list order — exactly CPython's dict semantics. -/

/-- Accumulator value of the `all_prompts` dict (before the averages pass). -/
structure PromptAcc where
  name : Option String
  total_runs : Nat
  total_pass_rate : ℚ
  total_dup_rate : ℚ
  suite_count : Nat
  deriving DecidableEq

/-- Accumulator value after the second loop adds the derived averages (the
script mutates the dict values in place; modelled as an extended record). -/
structure PromptAccA where
  name : Option String
  total_runs : Nat
  total_pass_rate : ℚ
  total_dup_rate : ℚ
  suite_count : Nat
  avg_pass_rate : ℚ
  avg_dup_rate : ℚ
  deriving DecidableEq

/-- First-match lookup in an insertion-ordered association list. -/
def dictFind {κ ν : Type} [DecidableEq κ] (d : List (κ × ν)) (k : κ) : Option ν :=
  match d with
  | [] => none
  | (k', v) :: rest => if k' = k then some v else dictFind rest k

/-- In-place update of the first matching key. -/
def dictUpdate {κ ν : Type} [DecidableEq κ] (d : List (κ × ν)) (k : κ) (f : ν → ν) :
    List (κ × ν) :=
  match d with
  | [] => []
  | (k', v) :: rest => if k' = k then (k', f v) :: rest else (k', v) :: dictUpdate rest k f

/-- The zero entry created on first sighting of a prompt id (keeps the
first-seen `promptName`). -/
def accInit (p : PromptStats) : PromptAcc :=
  { name := p.promptName, total_runs := 0, total_pass_rate := 0, total_dup_rate := 0,
    suite_count := 0 }

/-- The `+=` block of the aggregation loop. -/
def accAdd (a : PromptAcc) (p : PromptStats) : PromptAcc :=
  { a with
    total_runs := a.total_runs + p.totalRuns
    total_pass_rate := a.total_pass_rate + p.passAtNRate
    total_dup_rate := a.total_dup_rate + p.meanDupRate
    suite_count := a.suite_count + 1 }

/-- One iteration of the inner aggregation loop: create the entry if the key
is unseen, then accumulate the row into it. -/
def promptStep (d : List (Option String × PromptAcc)) (p : PromptStats) :
    List (Option String × PromptAcc) :=
  let d' :=
    match dictFind d p.promptId with
    | none => d ++ [(p.promptId, accInit p)]
    | some _ => d
  dictUpdate d' p.promptId (fun a => accAdd a p)

/-- The `all_prompts` dict: the nested loop over analyses and their prompt
rows. -/
def all_prompts (analyses : List SuiteAnalysis) : List (Option String × PromptAcc) :=
  analyses.foldl (fun d a => a.prompt_analysis.foldl promptStep d) []

/-- The averages pass: `avg_pass_rate`/`avg_dup_rate` divide the sums by
`suite_count`. -/
def withAvg (d : List (Option String × PromptAcc)) : List (Option String × PromptAccA) :=
  d.map (fun kv =>
    (kv.1,
      { name := kv.2.name, total_runs := kv.2.total_runs,
        total_pass_rate := kv.2.total_pass_rate, total_dup_rate := kv.2.total_dup_rate,
        suite_count := kv.2.suite_count,
        avg_pass_rate := kv.2.total_pass_rate / (kv.2.suite_count : ℚ),
        avg_dup_rate := kv.2.total_dup_rate / (kv.2.suite_count : ℚ) }))

/-- `best_overall`: the leaderboard sorted descending by average pass rate,
truncated to 5. -/
def best_overall (analyses : List SuiteAnalysis) : List (Option String × PromptAccA) :=
  (sortByDesc (fun kv => kv.2.avg_pass_rate) (withAvg (all_prompts analyses))).take 5

/-- `worst_overall`: sorted ascending by average pass rate, truncated to 3. -/
def worst_overall (analyses : List SuiteAnalysis) : List (Option String × PromptAccA) :=
  (sortByAsc (fun kv => kv.2.avg_pass_rate) (withAvg (all_prompts analyses))).take 3

/-- The flattened (suite, promptStats) visit sequence of the nested loop. -/
def promptRows (analyses : List SuiteAnalysis) : List PromptStats :=
  (analyses.map (fun a => a.prompt_analysis)).flatten

/-- Reference accumulation (stated from the spec's description of the
aggregator): fold the rows of one key into an entry created lazily on the
first sighting. -/
def specFold (o : Option PromptAcc) (rows : List PromptStats) : Option PromptAcc :=
  rows.foldl (fun o p => some (accAdd (o.getD (accInit p)) p)) o

theorem all_prompts_eq_foldl_rows (analyses : List SuiteAnalysis) :
    all_prompts analyses = (promptRows analyses).foldl promptStep [] := by
  suffices h : ∀ (l : List SuiteAnalysis) (d : List (Option String × PromptAcc)),
      l.foldl (fun d a => a.prompt_analysis.foldl promptStep d) d =
        ((l.map (fun a => a.prompt_analysis)).flatten).foldl promptStep d by
    exact h analyses []
  intro l
  induction l with
  | nil => intro d; rfl
  | cons a l ih =>
      intro d
      simp only [List.foldl_cons, List.map_cons, List.flatten_cons, List.foldl_append]
      exact ih _

theorem dictFind_append {κ ν : Type} [DecidableEq κ] (d₁ d₂ : List (κ × ν)) (k : κ) :
    dictFind (d₁ ++ d₂) k =
      match dictFind d₁ k with
      | some v => some v
      | none => dictFind d₂ k := by
  induction d₁ with
  | nil => rfl
  | cons kv d₁ ih =>
      obtain ⟨k', v⟩ := kv
      by_cases h : k' = k <;> simp [dictFind, h, ih]

theorem dictFind_update_eq {κ ν : Type} [DecidableEq κ] (d : List (κ × ν)) (k : κ)
    (f : ν → ν) : dictFind (dictUpdate d k f) k = (dictFind d k).map f := by
  induction d with
  | nil => rfl
  | cons kv d ih =>
      obtain ⟨k', v⟩ := kv
      by_cases h : k' = k <;> simp [dictFind, dictUpdate, h, ih]

theorem dictFind_update_ne {κ ν : Type} [DecidableEq κ] (d : List (κ × ν)) (k' k : κ)
    (f : ν → ν) (h : k' ≠ k) : dictFind (dictUpdate d k' f) k = dictFind d k := by
  induction d with
  | nil => rfl
  | cons kv d ih =>
      obtain ⟨k'', v⟩ := kv
      by_cases h1 : k'' = k'
      · subst h1
        simp [dictFind, dictUpdate, h, Ne.symm h]
      · by_cases h2 : k'' = k
        · subst h2
          simp [dictFind, dictUpdate, h1, Ne.symm h1]
        · simp [dictFind, dictUpdate, h1, h2, ih]

theorem dictFind_promptStep_eq (d : List (Option String × PromptAcc)) (p : PromptStats) :
    dictFind (promptStep d p) p.promptId =
      some (accAdd ((dictFind d p.promptId).getD (accInit p)) p) := by
  unfold promptStep
  cases h : dictFind d p.promptId with
  | none =>
      simp only [h, dictFind_update_eq, dictFind_append, h, Option.getD_none]
      simp [dictFind]
  | some a =>
      simp only [h, dictFind_update_eq, h, Option.getD_some]
      rfl

theorem dictFind_promptStep_ne (d : List (Option String × PromptAcc)) (p : PromptStats)
    (k : Option String) (h : p.promptId ≠ k) :
    dictFind (promptStep d p) k = dictFind d k := by
  unfold promptStep
  cases h1 : dictFind d p.promptId with
  | none =>
      rw [dictFind_update_ne _ _ _ _ h, dictFind_append]
      cases h2 : dictFind d k with
      | none => simp [dictFind, h]
      | some v => rfl
  | some a => rw [dictFind_update_ne _ _ _ _ h]

theorem dictFind_foldl_promptStep (rows : List PromptStats) (k : Option String) :
    ∀ d, dictFind (rows.foldl promptStep d) k =
      specFold (dictFind d k) (rows.filter (fun p => decide (p.promptId = k))) := by
  induction rows with
  | nil => intro d; rfl
  | cons r rows ih =>
      intro d
      simp only [List.foldl_cons, List.filter_cons]
      by_cases h : r.promptId = k
      · subst h
        rw [if_pos (by simp), ih, dictFind_promptStep_eq]
        rfl
      · rw [if_neg (by simp [h]), ih, dictFind_promptStep_ne d r k h]

theorem specFold_some (a : PromptAcc) (rows : List PromptStats) :
    specFold (some a) rows = some (rows.foldl accAdd a) := by
  induction rows generalizing a with
  | nil => rfl
  | cons r rows ih => simp only [specFold, List.foldl_cons, Option.getD_some] at *; exact ih _

theorem foldl_accAdd_fields (rows : List PromptStats) : ∀ a : PromptAcc,
    (rows.foldl accAdd a).suite_count = a.suite_count + rows.length ∧
    (rows.foldl accAdd a).total_pass_rate =
      a.total_pass_rate + (rows.map (fun p => p.passAtNRate)).sum ∧
    (rows.foldl accAdd a).total_dup_rate =
      a.total_dup_rate + (rows.map (fun p => p.meanDupRate)).sum ∧
    (rows.foldl accAdd a).total_runs = a.total_runs + (rows.map (fun p => p.totalRuns)).sum ∧
    (rows.foldl accAdd a).name = a.name := by
  induction rows with
  | nil => intro a; simp
  | cons r rows ih =>
      intro a
      obtain ⟨h1, h2, h3, h4, h5⟩ := ih (accAdd a r)
      refine ⟨?_, ?_, ?_, ?_, ?_⟩
      · rw [List.foldl_cons, h1]
        simp only [accAdd, List.length_cons]
        omega
      · rw [List.foldl_cons, h2]
        simp only [accAdd, List.map_cons, List.sum_cons]
        ring
      · rw [List.foldl_cons, h3]
        simp only [accAdd, List.map_cons, List.sum_cons]
        ring
      · rw [List.foldl_cons, h4]
        simp only [accAdd, List.map_cons, List.sum_cons]
        omega
      · rw [List.foldl_cons, h5]
        rfl

/-- Characterization of one leaderboard entry: lookup of a key in the
finished accumulator, described through the filtered occurrence sequence. -/
theorem dictFind_all_prompts (analyses : List SuiteAnalysis) (k : Option String) :
    dictFind (all_prompts analyses) k =
      specFold none ((promptRows analyses).filter (fun p => decide (p.promptId = k))) := by
  rw [all_prompts_eq_foldl_rows, dictFind_foldl_promptStep]
  rfl

theorem dictFind_withAvg (d : List (Option String × PromptAcc)) (k : Option String) :
    dictFind (withAvg d) k = (dictFind d k).map (fun a =>
      ({ name := a.name, total_runs := a.total_runs,
         total_pass_rate := a.total_pass_rate, total_dup_rate := a.total_dup_rate,
         suite_count := a.suite_count,
         avg_pass_rate := a.total_pass_rate / (a.suite_count : ℚ),
         avg_dup_rate := a.total_dup_rate / (a.suite_count : ℚ) } : PromptAccA)) := by
  induction d with
  | nil => rfl
  | cons kv d ih =>
      obtain ⟨k', v⟩ := kv
      by_cases h : k' = k
      · simp [dictFind, withAvg, h]
      · simp [dictFind, withAvg, h]
        simpa [withAvg] using ih

theorem specFold_none_characterization (rows : List PromptStats) (e : PromptAcc)
    (h : specFold none rows = some e) :
    e.suite_count = rows.length ∧
    e.total_pass_rate = (rows.map (fun p => p.passAtNRate)).sum ∧
    e.total_dup_rate = (rows.map (fun p => p.meanDupRate)).sum ∧
    e.total_runs = (rows.map (fun p => p.totalRuns)).sum ∧
    ∀ r rs, rows = r :: rs → e.name = r.promptName := by
  cases rows with
  | nil => cases h
  | cons r rs =>
      have h1 : specFold none (r :: rs) =
          some (rs.foldl accAdd (accAdd (accInit r) r)) := by
        show specFold (some (accAdd ((none : Option PromptAcc).getD (accInit r)) r)) rs = _
        rw [Option.getD_none, specFold_some]
      rw [h1] at h
      obtain rfl : rs.foldl accAdd (accAdd (accInit r) r) = e := Option.some.inj h
      obtain ⟨h1, h2, h3, h4, h5⟩ := foldl_accAdd_fields rs (accAdd (accInit r) r)
      refine ⟨?_, ?_, ?_, ?_, ?_⟩
      · rw [h1]
        simp only [accAdd, accInit, List.length_cons]
        omega
      · rw [h2]
        simp [accAdd, accInit]
      · rw [h3]
        simp [accAdd, accInit]
      · rw [h4]
        simp [accAdd, accInit]
      · intro r' rs' he
        obtain ⟨rfl, rfl⟩ : r = r' ∧ rs = rs' := by
          constructor <;> injection he
        rw [h5]
        simp [accAdd, accInit]

/-- A prompt-stats row literal used in concrete aggregation examples. -/
def exampleRow (pid : Option String) (nm : Option String) (rate : ℚ) : PromptStats :=
  { promptId := pid, promptName := nm, passAtNRate := rate, meanDupRate := 0,
    stdevDupRate := 0, jsonStrictRate := 0, insufficientRate := 0, formatErrorRate := 0,
    meanQualityScore := 0, totalRuns := 1 }

/-- A suite-analysis literal with a given row list, used in concrete examples. -/
def exampleSuite (sid : String) (rows : List PromptStats) : SuiteAnalysis :=
  { suite_id := sid, suite_name := sid, total_runs := 1, successful_runs := 1,
    failed_runs := 0, success_rate := 100, total_duration := 1, avg_duration_per_run := 1,
    top_prompts := ⟨[], [], [], []⟩, prompt_analysis := rows, environment := none }

/-- Claim C4: cross-suite aggregation visits every (suite, promptStats) pair
exactly once — the accumulator equals the fold over the flattened visit
sequence — and the finished leaderboard entry of any key accumulates exactly
the rows carrying that promptId: suiteCount counts them, the sums range over
them, and the averages are sum over suiteCount.  In particular, a prompt `p1`
scoring 80 in suite A and 60 in suite B yields an entry with
avgPassRate = 70 and suiteCount = 2. -/
theorem C4_leaderboard_accumulation (analyses : List SuiteAnalysis) (pid : Option String) :
    (all_prompts analyses = (promptRows analyses).foldl promptStep []) ∧
    (∀ e, dictFind (withAvg (all_prompts analyses)) pid = some e →
      e.suite_count =
        ((promptRows analyses).filter (fun p => decide (p.promptId = pid))).length ∧
      e.total_pass_rate =
        (((promptRows analyses).filter (fun p => decide (p.promptId = pid))).map
          (fun p => p.passAtNRate)).sum ∧
      e.total_dup_rate =
        (((promptRows analyses).filter (fun p => decide (p.promptId = pid))).map
          (fun p => p.meanDupRate)).sum ∧
      e.avg_pass_rate = e.total_pass_rate / (e.suite_count : ℚ) ∧
      e.avg_dup_rate = e.total_dup_rate / (e.suite_count : ℚ)) ∧
    (∃ e, dictFind
        (withAvg (all_prompts
          [exampleSuite "A" [exampleRow (some "p1") (some "p1") 80],
           exampleSuite "B" [exampleRow (some "p1") (some "p1") 60]])) (some "p1") =
        some e ∧ e.avg_pass_rate = 70 ∧ e.suite_count = 2) := by
  refine ⟨all_prompts_eq_foldl_rows analyses, ?_, ?_⟩
  · intro e he
    rw [dictFind_withAvg] at he
    cases h0 : dictFind (all_prompts analyses) pid with
    | none => rw [h0] at he; cases he
    | some a =>
        rw [h0] at he
        obtain rfl : _ = e := Option.some.inj he
        rw [dictFind_all_prompts] at h0
        obtain ⟨h1, h2, h3, _, _⟩ := specFold_none_characterization _ _ h0
        exact ⟨h1, h2, h3, rfl, rfl⟩
  · refine ⟨_, rfl, ?_, ?_⟩
    · show ((0 : ℚ) + 80 + 60) / ((0 + 1 + 1 : Nat) : ℚ) = 70
      norm_num
    · rfl

/-- Witness for C4: at the two-suite example the hypothesis of the entry
characterization is discharged by computation, giving suiteCount = 2 and the
sum 140 over the two occurrences. -/
theorem C4_leaderboard_accumulation_witness :
    ∃ e, dictFind
        (withAvg (all_prompts
          [exampleSuite "A" [exampleRow (some "p1") (some "p1") 80],
           exampleSuite "B" [exampleRow (some "p1") (some "p1") 60]])) (some "p1") =
      some e ∧ e.suite_count = 2 := by
  have h := (C4_leaderboard_accumulation
    [exampleSuite "A" [exampleRow (some "p1") (some "p1") 80],
     exampleSuite "B" [exampleRow (some "p1") (some "p1") 60]] (some "p1")).2.1
  refine ⟨_, rfl, ?_⟩
  have h2 := (h _ rfl).1
  rw [h2]
  rfl

/-- Claim C10: rows without a promptId all merge into the single entry keyed
by the null id: if no id-less row exists the entry is absent, and otherwise
the entry's suiteCount counts every id-less row (once per row, not per
suite), its pass-rate sum ranges over all of them, and its display name is
the first-sighted row's name. -/
theorem C10_idless_rows_single_entry (analyses : List SuiteAnalysis) :
    ((promptRows analyses).filter (fun p => decide (p.promptId = (none : Option String))) = [] →
      dictFind (all_prompts analyses) none = none) ∧
    ∀ r rs,
      (promptRows analyses).filter (fun p => decide (p.promptId = (none : Option String))) =
        r :: rs →
      ∃ e, dictFind (all_prompts analyses) none = some e ∧
        e.name = r.promptName ∧
        e.suite_count = (r :: rs).length ∧
        e.total_pass_rate = ((r :: rs).map (fun p => p.passAtNRate)).sum := by
  constructor
  · intro h
    rw [dictFind_all_prompts, h]
    rfl
  · intro r rs h
    rw [dictFind_all_prompts, h]
    cases h1 : specFold none (r :: rs) with
    | none =>
        exfalso
        have : specFold none (r :: rs) =
            some (rs.foldl accAdd (accAdd (accInit r) r)) := by
          show specFold (some (accAdd ((none : Option PromptAcc).getD (accInit r)) r)) rs = _
          rw [Option.getD_none, specFold_some]
        rw [this] at h1
        cases h1
    | some e =>
        obtain ⟨g1, g2, _, _, g5⟩ := specFold_none_characterization _ _ h1
        exact ⟨e, rfl, g5 r rs rfl, g1, g2⟩

/-- Witness for C10: one suite containing two id-less rows produces a single
null-keyed entry with suiteCount = 2 carrying the first row's name. -/
theorem C10_idless_rows_single_entry_witness :
    ∃ e, dictFind
        (all_prompts [exampleSuite "A"
          [exampleRow none (some "x") 80, exampleRow none (some "y") 60]]) none =
      some e ∧ e.name = some "x" ∧ e.suite_count = 2 := by
  have h := (C10_idless_rows_single_entry
    [exampleSuite "A" [exampleRow none (some "x") 80, exampleRow none (some "y") 60]]).2
  obtain ⟨e, he, hn, hc, _⟩ := h (exampleRow none (some "x") 80) [exampleRow none (some "y") 60] rfl
  exact ⟨e, he, hn, hc⟩

/-- Claim C6: bestOverall is the leaderboard sorted descending by average
pass rate truncated to 5, worstOverall ascending truncated to 3; both are
sorted, have the truncated lengths, and tied entries appear in first-sighting
(insertion) order: for every key value the tied slice is a prefix of the
insertion-ordered entry list filtered to that value. -/
theorem C6_best_worst_overall (analyses : List SuiteAnalysis) :
    (best_overall analyses).Pairwise (fun a b => b.2.avg_pass_rate ≤ a.2.avg_pass_rate) ∧
    (worst_overall analyses).Pairwise (fun a b => a.2.avg_pass_rate ≤ b.2.avg_pass_rate) ∧
    (best_overall analyses).length = min 5 (withAvg (all_prompts analyses)).length ∧
    (worst_overall analyses).length = min 3 (withAvg (all_prompts analyses)).length ∧
    (∀ q : ℚ, (best_overall analyses).filter (fun kv => decide (kv.2.avg_pass_rate = q)) <+:
      (withAvg (all_prompts analyses)).filter (fun kv => decide (kv.2.avg_pass_rate = q))) ∧
    (∀ q : ℚ, (worst_overall analyses).filter (fun kv => decide (kv.2.avg_pass_rate = q)) <+:
      (withAvg (all_prompts analyses)).filter (fun kv => decide (kv.2.avg_pass_rate = q))) := by
  refine ⟨?_, ?_, ?_, ?_, ?_, ?_⟩
  · exact (sortByDesc_pairwise _ _).sublist (List.take_sublist _ _)
  · exact (sortByAsc_pairwise _ _).sublist (List.take_sublist _ _)
  · simp [best_overall, List.length_take, sortByDesc, List.length_insertionSort]
  · simp [worst_overall, List.length_take, sortByAsc, List.length_insertionSort]
  · intro q
    have h1 := (List.take_prefix 5
      (sortByDesc (fun kv => kv.2.avg_pass_rate) (withAvg (all_prompts analyses)))).filter
      (fun kv => decide (kv.2.avg_pass_rate = q))
    rw [sortByDesc_filter_eq] at h1
    exact h1
  · intro q
    have h1 := (List.take_prefix 3
      (sortByAsc (fun kv => kv.2.avg_pass_rate) (withAvg (all_prompts analyses)))).filter
      (fun kv => decide (kv.2.avg_pass_rate = q))
    rw [sortByAsc_filter_eq] at h1
    exact h1

/-! ### Claim C8: the global sums -/

/-- `total_tests` of the executive summary: sum of `total_runs`. -/
def totalTests (analyses : List SuiteAnalysis) : Nat :=
  (analyses.map (fun a => a.total_runs)).sum

/-- `total_passed` of the executive summary: sum of `successful_runs`. -/
def totalPassed (analyses : List SuiteAnalysis) : Nat :=
  (analyses.map (fun a => a.successful_runs)).sum

/-- `total_time` of the executive summary: sum of `total_duration`. -/
def totalDurationAll (analyses : List SuiteAnalysis) : ℚ :=
  (analyses.map (fun a => a.total_duration)).sum

/-- Claim C8: the aggregated sums are invariant under any permutation of the
input suite sequence. -/
theorem C8_sums_permutation_invariant (l l' : List SuiteAnalysis) (h : l.Perm l') :
    totalTests l = totalTests l' ∧ totalPassed l = totalPassed l' ∧
      totalDurationAll l = totalDurationAll l' :=
  ⟨(h.map _).sum_eq, (h.map _).sum_eq, (h.map _).sum_eq⟩

/-- Witness for C8 at a concrete two-suite swap. -/
theorem C8_sums_permutation_invariant_witness :
    ([exampleSuite "A" [], exampleSuite "B" []].Perm
        [exampleSuite "B" [], exampleSuite "A" []]) ∧
      (totalTests [exampleSuite "A" [], exampleSuite "B" []] =
          totalTests [exampleSuite "B" [], exampleSuite "A" []] ∧
        totalPassed [exampleSuite "A" [], exampleSuite "B" []] =
          totalPassed [exampleSuite "B" [], exampleSuite "A" []] ∧
        totalDurationAll [exampleSuite "A" [], exampleSuite "B" []] =
          totalDurationAll [exampleSuite "B" [], exampleSuite "A" []]) :=
  ⟨List.Perm.swap (exampleSuite "B" []) (exampleSuite "A" []) [],
   C8_sums_permutation_invariant _ _
     (List.Perm.swap (exampleSuite "B" []) (exampleSuite "A" []) [])⟩

/-! ### Coordinator Experiment Ingester (the appendix loop in `main`)

`RunRecord` models one entry of a coordinator report's `results` list.
`dupRate` models `(r.get('diagnostics') or {}).get('dupRate')` together with
the `isinstance` numeric check: `none` covers an absent `diagnostics`
object, an absent `dupRate` key, and a non-numeric value. -/

structure RunRecord where
  scenarioId : Option String := none
  scenarioName : Option String := none
  uniqueItems : Option Nat := none
  passAtN : Bool := false
  wouldEscalatePCC : Bool := false
  dupRate : Option ℚ := none
  deriving DecidableEq

/-- A parsed coordinator experiment report. -/
structure CoordData where
  results : List RunRecord := []
  scenarios : List String := []
  totalRuns : Option Nat := none
  successfulRuns : Option Nat := none
  deriving DecidableEq

/-- One iteration of `by_scenario.setdefault(sid, []).append(r)`. -/
def groupStep (d : List (String × List RunRecord)) (r : RunRecord) :
    List (String × List RunRecord) :=
  let sid := r.scenarioId.getD "unknown"
  match dictFind d sid with
  | none => d ++ [(sid, [r])]
  | some _ => dictUpdate d sid (fun runs => runs ++ [r])

/-- The `by_scenario` grouping dict. -/
def by_scenario (results : List RunRecord) : List (String × List RunRecord) :=
  results.foldl groupStep []

/-- `p`: number of records of the group with `passAtN` truthy. -/
def passCnt (runs : List RunRecord) : Nat :=
  (runs.filter (fun r => r.passAtN)).length

/-- `avg_u`: mean of the defaulted `uniqueItems` over the whole group. -/
def avgUnique (runs : List RunRecord) : ℚ :=
  (runs.map (fun r => ((r.uniqueItems.getD 0 : Nat) : ℚ))).sum /
    ((max 1 runs.length : Nat) : ℚ)

/-- `dup_vals`: the numeric dup rates present in the group. -/
def dupVals (runs : List RunRecord) : List ℚ :=
  runs.filterMap (fun r => r.dupRate)

/-- `avg_dup`: mean over only the numeric dup rates; 0.0 when none. -/
def avgDupRate (runs : List RunRecord) : ℚ :=
  if dupVals runs = [] then 0 else (dupVals runs).sum / (((dupVals runs).length : Nat) : ℚ)

/-- `esc`: number of records with `wouldEscalatePCC` truthy. -/
def escCnt (runs : List RunRecord) : Nat :=
  (runs.filter (fun r => r.wouldEscalatePCC)).length

/-- The Avg DupRate cell of a per-scenario table row: the fraction is
rescaled by 100 inside the rendering expression (`avg_dup*100:.1f`). -/
def dupRateCell (runs : List RunRecord) : String :=
  fmtF 1 (avgDupRate runs * 100) ++ "%"

/-- One per-scenario table row of the coordinator appendix. -/
def scenarioRow (sid : String) (runs : List RunRecord) : String :=
  let name :=
    match runs with
    | [] => sid
    | r :: _ => r.scenarioName.getD sid
  "| " ++ name.take 24 ++ " | " ++ toString runs.length ++ " | " ++
    toString (passCnt runs) ++ " | " ++ fmtF 1 (avgUnique runs) ++ " | " ++
    dupRateCell runs ++ " | " ++ toString (escCnt runs) ++ " |"

theorem dictFind_groupStep_eq (d : List (String × List RunRecord)) (r : RunRecord) :
    dictFind (groupStep d r) (r.scenarioId.getD "unknown") =
      some (((dictFind d (r.scenarioId.getD "unknown")).getD []) ++ [r]) := by
  unfold groupStep
  cases h : dictFind d (r.scenarioId.getD "unknown") with
  | none =>
      simp only [h, dictFind_append, h, Option.getD_none, List.nil_append]
      simp [dictFind]
  | some g =>
      simp only [h, dictFind_update_eq, h, Option.getD_some]
      rfl

theorem dictFind_groupStep_ne (d : List (String × List RunRecord)) (r : RunRecord)
    (k : String) (h : r.scenarioId.getD "unknown" ≠ k) :
    dictFind (groupStep d r) k = dictFind d k := by
  unfold groupStep
  cases h1 : dictFind d (r.scenarioId.getD "unknown") with
  | none =>
      simp only [h1]
      rw [dictFind_append]
      cases h2 : dictFind d k with
      | none => simp [dictFind, h]
      | some v => rfl
  | some g =>
      simp only [h1]
      rw [dictFind_update_ne _ _ _ _ h]

theorem dictFind_groupStep_eq' (d : List (String × List RunRecord)) (r : RunRecord)
    (k : String) (h : r.scenarioId.getD "unknown" = k) :
    dictFind (groupStep d r) k = some (((dictFind d k).getD []) ++ [r]) := by
  subst h
  exact dictFind_groupStep_eq d r

theorem dictFind_foldl_groupStep (results : List RunRecord) (sid : String) :
    ∀ d, dictFind (results.foldl groupStep d) sid =
      match dictFind d sid with
      | some g =>
          some (g ++ results.filter (fun r => decide (r.scenarioId.getD "unknown" = sid)))
      | none =>
          if results.filter (fun r => decide (r.scenarioId.getD "unknown" = sid)) = []
          then none
          else some (results.filter (fun r => decide (r.scenarioId.getD "unknown" = sid))) := by
  induction results with
  | nil =>
      intro d
      cases h : dictFind d sid <;> simp [h]
  | cons r rest ih =>
      intro d
      simp only [List.foldl_cons, List.filter_cons]
      by_cases hs : r.scenarioId.getD "unknown" = sid
      · rw [if_pos (by simp [hs]), ih (groupStep d r), dictFind_groupStep_eq' d r sid hs]
        cases h0 : dictFind d sid with
        | some g =>
            simp only [h0, Option.getD_some, List.append_assoc, List.singleton_append]
        | none =>
            simp only [h0, Option.getD_none, List.nil_append, List.singleton_append]
            rw [if_neg (by simp)]
      · rw [if_neg (by simp [hs]), ih (groupStep d r), dictFind_groupStep_ne d r sid hs]

/-- Lookup of one scenario id in the finished grouping dict: exactly the
records carrying that id, in input order (or absent when there are none). -/
theorem dictFind_by_scenario (results : List RunRecord) (sid : String) :
    dictFind (by_scenario results) sid =
      if results.filter (fun r => decide (r.scenarioId.getD "unknown" = sid)) = []
      then none
      else some (results.filter (fun r => decide (r.scenarioId.getD "unknown" = sid))) := by
  rw [by_scenario, dictFind_foldl_groupStep]
  rfl

theorem length_filterMap_eq_countP {α β : Type} (f : α → Option β) (l : List α) :
    (l.filterMap f).length = l.countP (fun x => (f x).isSome) := by
  induction l with
  | nil => rfl
  | cons a l ih => cases h : f a <;> simp [List.filterMap_cons, h, List.countP_cons, ih]

/-- The concrete 4-record example of the spec: 3 passing records, two of
them carrying numeric dup rates 0.1 and 0.3. -/
def c7run (pass : Bool) (dup : Option ℚ) : RunRecord :=
  { scenarioId := some "s1", scenarioName := some "s1", uniqueItems := some 1,
    passAtN := pass, wouldEscalatePCC := false, dupRate := dup }

def c7runs : List RunRecord :=
  [c7run true (some (1/10)), c7run true (some (3/10)), c7run true none, c7run false none]

/-- Claim C7: the group of a scenario id holds exactly the records with that
id; passCount counts the records with `passAtN` true; avgDupRate averages
only over records carrying a numeric dup rate — they alone enter sum and
denominator — and is 0 when none carries one.  The spec's 4-record example
yields passCount = 3 and avgDupRate = 0.2. -/
theorem C7_scenario_summary (results : List RunRecord) (sid : String) :
    (∀ g, dictFind (by_scenario results) sid = some g →
      g = results.filter (fun r => decide (r.scenarioId.getD "unknown" = sid)) ∧
      passCnt g = g.countP (fun r => r.passAtN) ∧
      avgDupRate g * (((dupVals g).length : Nat) : ℚ) = (dupVals g).sum ∧
      (dupVals g).length = g.countP (fun r => (r.dupRate).isSome) ∧
      (dupVals g = [] → avgDupRate g = 0)) ∧
    (passCnt c7runs = 3 ∧ avgDupRate c7runs = 1/5) := by
  constructor
  · intro g hg
    rw [dictFind_by_scenario] at hg
    by_cases h : results.filter (fun r => decide (r.scenarioId.getD "unknown" = sid)) = []
    · rw [if_pos h] at hg
      cases hg
    · rw [if_neg h] at hg
      obtain rfl : _ = g := Option.some.inj hg
      refine ⟨rfl, ?_, ?_, ?_, ?_⟩
      · rw [passCnt, List.countP_eq_length_filter]
      · unfold avgDupRate
        by_cases hv : dupVals (results.filter
            (fun r => decide (r.scenarioId.getD "unknown" = sid))) = []
        · rw [if_pos hv, hv]
          simp
        · rw [if_neg hv]
          have hpos : 0 < (dupVals (results.filter
              (fun r => decide (r.scenarioId.getD "unknown" = sid)))).length :=
            List.length_pos.mpr hv
          have hlen : ((((dupVals (results.filter
              (fun r => decide (r.scenarioId.getD "unknown" = sid)))).length : Nat)) : ℚ) ≠ 0 :=
            Nat.cast_ne_zero.mpr (Nat.pos_iff_ne_zero.mp hpos)
          rw [div_mul_cancel₀ _ hlen]
      · rw [dupVals, length_filterMap_eq_countP]
      · intro hv
        unfold avgDupRate
        rw [if_pos hv]
  · constructor
    · rfl
    · have hv : dupVals c7runs = [1/10, 3/10] := rfl
      unfold avgDupRate
      rw [hv, if_neg (by simp)]
      norm_num

/-- Witness for C7 at the spec's 4-record example: the grouping hypothesis
is discharged by computation for scenario `s1`. -/
theorem C7_scenario_summary_witness :
    c7runs = c7runs.filter (fun r => decide (r.scenarioId.getD "unknown" = "s1")) ∧
      passCnt c7runs = c7runs.countP (fun r => r.passAtN) := by
  have h := (C7_scenario_summary c7runs "s1").1 c7runs (by rfl)
  exact ⟨h.1, h.2.1⟩

/-! ### Claim C2: where the fraction-to-percentage rescaling happens -/

/-- The Pass@N cell of the suite detail table: formatting only, no rescale
(`{prompt['passAtNRate']:.1f}%`). -/
def promptTableCellPass (p : PromptStats) : String :=
  fmtF 1 p.passAtNRate ++ "%"

/-- The JSON cell of the suite detail table: the format specifier is
`{prompt['jsonStrictRate']:.0f}%` — zero decimal places, not one. -/
def promptTableCellJson (p : PromptStats) : String :=
  fmtF 0 p.jsonStrictRate ++ "%"

/-- One row of the suite detail prompt table.  CPython raises on a missing
`promptName` at the slice `[:30]`; the model renders the string `None`
there, which no claim exercises. -/
def promptRow (p : PromptStats) : String :=
  "| " ++ (p.promptName.getD "None").take 30 ++ " | " ++ promptTableCellPass p ++ " | " ++
    fmtF 1 p.meanDupRate ++ "±" ++ fmtF 1 p.stdevDupRate ++ "% | " ++
    promptTableCellJson p ++ " | " ++ fmtF 3 p.meanQualityScore ++ " | " ++
    toString p.totalRuns ++ " |"

def c2runs : List RunRecord := [c7run true (some (1/10)), c7run true (some (3/10))]

/-- A prompt row with an already-scaled `jsonStrictRate` of 85, as the
analyzer stores for a raw fraction of 0.85. -/
def c2row : PromptStats :=
  { promptId := some "p1", promptName := some "p1", passAtNRate := 90, meanDupRate := 10,
    stdevDupRate := 0, jsonStrictRate := 85, insufficientRate := 0, formatErrorRate := 0,
    meanQualityScore := 0, totalRuns := 1 }

/-- Claim C2 counterexample, in two parts.  First, for the scenario summary
of two records with dup rates 0.1 and 0.3, the code's
`ScenarioSummary.avgDupRate` is the fraction 0.2 — it has not been rescaled
before rendering — and the rendered dup-rate cell is `20.0%`, not the
one-decimal formatting `0.2%` of that value: the ×100 rescale happens inside
the renderer.  Second, the renderer does not format every percentage cell
with exactly one decimal place: the JSON cell of the suite detail table uses
zero decimal places, so a row whose `jsonStrictRate` is 85 renders as `85%`,
not as the one-decimal `85.0%`. -/
theorem C2_counterexample :
    (avgDupRate c2runs = 1/5 ∧
      dupRateCell c2runs = "20.0%" ∧
      fmtF 1 (avgDupRate c2runs) ++ "%" = "0.2%" ∧
      dupRateCell c2runs ≠ fmtF 1 (avgDupRate c2runs) ++ "%") ∧
    (c2row.jsonStrictRate = 85 ∧
      promptTableCellJson c2row = "85%" ∧
      fmtF 1 c2row.jsonStrictRate ++ "%" = "85.0%" ∧
      promptTableCellJson c2row ≠ fmtF 1 c2row.jsonStrictRate ++ "%") := by
  have h : avgDupRate c2runs = 1/5 := by
    have hv : dupVals c2runs = [1/10, 3/10] := rfl
    unfold avgDupRate
    rw [hv, if_neg (by simp)]
    norm_num
  have hcell : dupRateCell c2runs = "20.0%" := by
    unfold dupRateCell
    rw [h]
    have h20 : (1/5 : ℚ) * 100 = 20 := by norm_num
    rw [h20]
    decide
  have hfmt : fmtF 1 (avgDupRate c2runs) ++ "%" = "0.2%" := by
    rw [h]
    norm_num [fmtF, padZeros]
    decide
  refine ⟨⟨h, hcell, hfmt, ?_⟩, rfl, by decide, by decide, by decide⟩
  rw [hcell, hfmt]
  decide

/-- Claim C2 (amended): every fraction-valued rate of the suite path is
rescaled to 0–100 in the Suite Analyzer, and the suite-table renderer
performs no rescaling — each cell is the stored field value formatted, with
one decimal place for the Pass@N, dup-rate and stdev cells but zero decimal
places for the JSON cell; the coordinator path keeps `avgDupRate` as a
fraction in the scenario summary and performs the ×100 rescale at the render
site, so the rendered cell equals `100 · avgDupRate` formatted to one
decimal. -/
theorem C2_rescaling_localized (agg : RawPromptAgg) (p : PromptStats)
    (runs : List RunRecord) :
    ((toPromptStats agg).passAtNRate = agg.overallStats.passAtNRate.getD 0 * 100 ∧
      (toPromptStats agg).meanDupRate = agg.overallStats.meanDupRate.getD 0 * 100 ∧
      (toPromptStats agg).stdevDupRate = agg.overallStats.stdevDupRate.getD 0 * 100 ∧
      (toPromptStats agg).jsonStrictRate = agg.overallStats.jsonStrictRate.getD 0 * 100 ∧
      (toPromptStats agg).insufficientRate =
        agg.overallStats.insufficientRate.getD 0 * 100 ∧
      (toPromptStats agg).formatErrorRate =
        agg.overallStats.formatErrorRate.getD 0 * 100) ∧
    (promptRow p =
      "| " ++ (p.promptName.getD "None").take 30 ++ " | " ++
        fmtF 1 p.passAtNRate ++ "%" ++ " | " ++
        fmtF 1 p.meanDupRate ++ "±" ++ fmtF 1 p.stdevDupRate ++ "% | " ++
        fmtF 0 p.jsonStrictRate ++ "%" ++ " | " ++ fmtF 3 p.meanQualityScore ++ " | " ++
        toString p.totalRuns ++ " |") ∧
    promptTableCellPass (toPromptStats agg) =
      fmtF 1 (agg.overallStats.passAtNRate.getD 0 * 100) ++ "%" ∧
    promptTableCellJson (toPromptStats agg) =
      fmtF 0 (agg.overallStats.jsonStrictRate.getD 0 * 100) ++ "%" ∧
    dupRateCell runs = fmtF 1 (100 * avgDupRate runs) ++ "%" := by
  refine ⟨⟨rfl, rfl, rfl, rfl, rfl, rfl⟩, ?_, rfl, rfl, ?_⟩
  · simp only [promptRow, promptTableCellPass, promptTableCellJson, String.append_assoc]
  · rw [dupRateCell, mul_comm]

/-! ### Report Renderer (`generate_markdown_report`)

The document is modelled as its list of lines (the script joins them with
newlines at the end). -/

/-- Python `str()` interpolation of a possibly-`None` value. -/
def optStr : Option String → String
  | none => "None"
  | some s => s

/-- The fixed header block of `generate_markdown_report`; the generation
timestamp occupies the line at index 2. -/
def headerLines (ts : String) : List String :=
  ["# Detailed AI Prompt Test Analysis", "",
   "**Generated:** " ++ ts, "", "---", "", "## Executive Summary", ""]

/-- The executive-summary bullets and the comparison-table header. -/
def execLines (analyses : List SuiteAnalysis) : List String :=
  ["- **Total Test Runs Across All Suites:** " ++ commaFmt (totalTests analyses),
   "- **Overall Success Rate:** " ++
     fmtF 1 ((totalPassed analyses : ℚ) / ((max 1 (totalTests analyses) : Nat) : ℚ) * 100) ++
     "%",
   "- **Total Test Duration:** " ++ fmtF 1 (totalDurationAll analyses) ++ "s (" ++
     fmtF 1 (totalDurationAll analyses / 60) ++ " minutes)",
   "- **Average Time Per Test:** " ++
     fmtF 2 (totalDurationAll analyses / ((max 1 (totalTests analyses) : Nat) : ℚ)) ++ "s",
   "",
   "### Suite Performance Comparison",
   "",
   "| Suite | Runs | Success Rate | Duration | Avg/Run |",
   "|-------|------|--------------|----------|---------|"]

/-- One row of the suite performance comparison table. -/
def suiteRow (a : SuiteAnalysis) : String :=
  "| " ++ a.suite_name ++ " | " ++ toString a.total_runs ++ " | " ++
    fmtF 1 a.success_rate ++ "% | " ++ fmtF 1 a.total_duration ++ "s | " ++
    fmtF 2 a.avg_duration_per_run ++ "s |"

def midLines : List String := ["", "---", "", "## Detailed Suite Analysis", ""]

/-- The environment block, present only when the environment dict is truthy. -/
def envBlock : Option EnvInfo → List String
  | none => []
  | some env =>
      ["#### Test Environment", "",
       "- **OS Version:** " ++ env.osVersion.getD "N/A",
       "- **Top-P Sampling:** " ++ (if env.hasTopP then "Available" else "Not Available"),
       "- **Build Date:** " ++ env.buildDate.getD "N/A",
       ""]

/-- One enumerated line of a top-prompts ranking (1-based index). -/
def rankLine (i : Nat) (e : RankEntry) : String :=
  toString i ++ ". **" ++ optStr e.promptName ++ "** - Score: " ++ fmtF 3 e.score

def enumRank (i : Nat) : List RankEntry → List String
  | [] => []
  | e :: es => rankLine i e :: enumRank (i + 1) es

/-- A top-prompts subsection, emitted only when the list is truthy. -/
def topBlock (title : String) : List RankEntry → List String
  | [] => []
  | l => [title, ""] ++ enumRank 1 l ++ [""]

/-- The detailed prompt table, emitted only when `prompt_analysis` is
truthy; it renders only the first 10 rows. -/
def tableBlock : List PromptStats → List String
  | [] => []
  | l =>
      ["| Prompt | Pass@N | Dup Rate | JSON | Quality | Runs |",
       "|--------|--------|----------|------|---------|------|"] ++
        (l.take 10).map promptRow ++ [""]

/-- One per-suite detail section. -/
def suiteSection (a : SuiteAnalysis) : List String :=
  ["### " ++ a.suite_name, "",
   "**Suite ID:** `" ++ a.suite_id ++ "`", "",
   "#### Performance Metrics", "",
   "- **Total Runs:** " ++ toString a.total_runs,
   "- **Successful:** " ++ toString a.successful_runs ++ " (" ++ fmtF 1 a.success_rate ++ "%)",
   "- **Failed:** " ++ toString a.failed_runs,
   "- **Total Duration:** " ++ fmtF 1 a.total_duration ++ "s",
   "- **Average Duration/Run:** " ++ fmtF 2 a.avg_duration_per_run ++ "s",
   ""]
  ++ envBlock a.environment
  ++ topBlock "#### 🏆 Top Prompts by Pass Rate" a.top_prompts.byPassRate
  ++ topBlock "#### ⭐ Top Prompts by Quality Score" a.top_prompts.byQuality
  ++ topBlock "#### ⚡ Top Prompts by Speed" a.top_prompts.bySpeed
  ++ tableBlock a.prompt_analysis
  ++ ["---", ""]

def recsHeader : List String :=
  ["## Recommendations & Insights", "", "### Best Performing Prompts Overall", ""]

/-- One numbered entry of the best-overall list. -/
def bestEntryLines (i : Nat) (kv : Option String × PromptAccA) : List String :=
  [toString i ++ ". **" ++ optStr kv.2.name ++ "** (`" ++ optStr kv.1 ++ "`)",
   "   - Average Pass Rate: " ++ fmtF 1 kv.2.avg_pass_rate ++ "%",
   "   - Average Dup Rate: " ++ fmtF 1 kv.2.avg_dup_rate ++ "%",
   "   - Tested in " ++ toString kv.2.suite_count ++ " suite(s)",
   "   - Total Runs: " ++ toString kv.2.total_runs,
   ""]

def enumBest (i : Nat) : List (Option String × PromptAccA) → List String
  | [] => []
  | kv :: rest => bestEntryLines i kv ++ enumBest (i + 1) rest

/-- One numbered entry of the worst-overall list. -/
def worstEntryLines (i : Nat) (kv : Option String × PromptAccA) : List String :=
  [toString i ++ ". **" ++ optStr kv.2.name ++ "** (`" ++ optStr kv.1 ++ "`)",
   "   - Average Pass Rate: " ++ fmtF 1 kv.2.avg_pass_rate ++ "%",
   "   - Consider revising or removing this prompt",
   ""]

def enumWorst (i : Nat) : List (Option String × PromptAccA) → List String
  | [] => []
  | kv :: rest => worstEntryLines i kv ++ enumWorst (i + 1) rest

/-- The recommendations section: best 5, then worst 3. -/
def recsLines (analyses : List SuiteAnalysis) : List String :=
  recsHeader ++ enumBest 1 (best_overall analyses) ++
    ["### Areas for Improvement", ""] ++ enumWorst 1 (worst_overall analyses)

/-- All lines produced by `generate_markdown_report`. -/
def reportLines (analyses : List SuiteAnalysis) (ts : String) : List String :=
  headerLines ts ++ execLines analyses ++ analyses.map suiteRow ++ midLines ++
    (analyses.map suiteSection).flatten ++ recsLines analyses

/-- The appendix subsection for one coordinator file: a parse failure is
rendered as an error stub, a parsed file as header bullets plus the
per-scenario table. -/
def coordFileSection : String × Except String CoordData → List String
  | (nm, Except.error e) =>
      ["### " ++ nm, "", "(error parsing report: " ++ e ++ ")", ""]
  | (nm, Except.ok d) =>
      ["### " ++ nm, "",
       "- **Scenarios:** " ++
         (if d.scenarios = [] then "n/a" else String.intercalate ", " d.scenarios),
       "- **Runs:** " ++ toString (d.totalRuns.getD d.results.length),
       "- **Successful:** " ++
         toString (d.successfulRuns.getD (d.results.filter (fun r => r.passAtN)).length),
       "",
       "| Scenario | Runs | Pass | Avg Unique | Avg DupRate | Escalate |",
       "|---------|------|------|------------|-------------|----------|"] ++
        (by_scenario d.results).map (fun g => scenarioRow g.1 g.2) ++ [""]

/-- The coordinator appendix (empty when no coordinator file was found). -/
def coordLines : List (String × Except String CoordData) → List String
  | [] => []
  | files =>
      ["\n---\n", "## Coordinator Experiments (Appendix)", "\n"] ++
        (files.map coordFileSection).flatten

/-- The complete generated document (suite report plus optional appendix). -/
def renderDocument (analyses : List SuiteAnalysis)
    (coords : List (String × Except String CoordData)) (ts : String) : List String :=
  reportLines analyses ts ++ coordLines coords

/-- Claim C9: rendering is a pure function of its inputs — two renders of the
same data differ only in the timestamp, which occupies exactly the single
line at index 2: the document rendered with timestamp `t2` is the document
rendered with `t1` with only that line replaced. -/
theorem C9_render_deterministic (analyses : List SuiteAnalysis)
    (coords : List (String × Except String CoordData)) (t1 t2 : String) :
    renderDocument analyses coords t2 =
      (renderDocument analyses coords t1).set 2 ("**Generated:** " ++ t2) := by
  simp only [renderDocument, reportLines, headerLines, List.cons_append, List.nil_append,
    List.set]
  rfl

/-! ### Counting suite sections in the document

Each suite detail section contains exactly one line equal to
`#### Performance Metrics`, and no other line of the document ever equals
it (every other line family starts with a different character, carries a
`*` where the marker has none, or differs at a fixed position), so the
number of suite sections in a document is the count of that marker line. -/

def sectionMarker : String := "#### Performance Metrics"

def markerCount (doc : List String) : Nat := doc.count sectionMarker

theorem ne_marker_at (s : String) (i : Nat) (c : Char)
    (h : (s.data.drop i).head? = some c)
    (hc : (sectionMarker.data.drop i).head? ≠ some c) : s ≠ sectionMarker := by
  intro he
  rw [he] at h
  exact hc h

theorem ne_marker_of_star (s : String) (h : ('*' : Char) ∈ s.data) :
    s ≠ sectionMarker := by
  intro he
  rw [he] at h
  exact absurd h (by decide)

theorem markerCount_cons (x : String) (l : List String) (h : x ≠ sectionMarker) :
    markerCount (x :: l) = markerCount l := by
  simp [markerCount, List.count_cons, h]

theorem markerCount_cons_marker (l : List String) :
    markerCount ("#### Performance Metrics" :: l) = markerCount l + 1 := by
  simp [markerCount, sectionMarker, List.count_cons]

theorem markerCount_append (l1 l2 : List String) :
    markerCount (l1 ++ l2) = markerCount l1 + markerCount l2 := by
  simp [markerCount, List.count_append]

theorem markerCount_map_zero {α : Type} (f : α → String) (l : List α)
    (h : ∀ a, f a ≠ sectionMarker) : markerCount (l.map f) = 0 := by
  induction l with
  | nil => rfl
  | cons a l ih => rw [List.map_cons, markerCount_cons _ _ (h a), ih]

theorem markerCount_flatten_zero {α : Type} (f : α → List String) (l : List α)
    (h : ∀ a, markerCount (f a) = 0) : markerCount ((l.map f).flatten) = 0 := by
  induction l with
  | nil => rfl
  | cons a l ih =>
      rw [List.map_cons, List.flatten_cons, markerCount_append, h a, ih]

theorem markerCount_headerLines (ts : String) : markerCount (headerLines ts) = 0 := by
  unfold headerLines
  rw [markerCount_cons _ _ (by decide), markerCount_cons _ _ (by decide),
    markerCount_cons _ _ (ne_marker_at ("**Generated:** " ++ ts) 0 '*' rfl (by decide))]
  decide

theorem markerCount_execLines (analyses : List SuiteAnalysis) :
    markerCount (execLines analyses) = 0 := by
  unfold execLines
  rw [markerCount_cons _ _ ?h1, markerCount_cons _ _ ?h2, markerCount_cons _ _ ?h3,
    markerCount_cons _ _ ?h4]
  case h1 => exact ne_marker_at _ 0 '-' rfl (by decide)
  case h2 => exact ne_marker_at _ 0 '-' rfl (by decide)
  case h3 => exact ne_marker_at _ 0 '-' rfl (by decide)
  case h4 => exact ne_marker_at _ 0 '-' rfl (by decide)
  decide

theorem drop_head?_append (p s : String) (i : Nat) (c : Char)
    (h : (p.data.drop i).head? = some c) : (((p ++ s).data).drop i).head? = some c := by
  rw [String.data_append]
  have hne : p.data.drop i ≠ [] := by
    intro h0; rw [h0] at h; cases h
  have hle : i ≤ p.data.length := by
    by_contra hgt
    push_neg at hgt
    exact hne (List.drop_eq_nil_of_le (le_of_lt hgt))
  rw [List.drop_append_of_le_length hle]
  cases hd : p.data.drop i with
  | nil => exact absurd hd hne
  | cons a l =>
      rw [hd] at h
      simpa using h

theorem suiteRow_ne_marker (a : SuiteAnalysis) : suiteRow a ≠ sectionMarker := by
  apply ne_marker_at _ 0 '|' ?_ (by decide)
  unfold suiteRow
  repeat (first | apply drop_head?_append | rfl)

theorem promptRow_ne_marker (p : PromptStats) : promptRow p ≠ sectionMarker := by
  apply ne_marker_at _ 0 '|' ?_ (by decide)
  unfold promptRow
  repeat (first | apply drop_head?_append | rfl)

theorem scenarioRow_ne_marker (sid : String) (runs : List RunRecord) :
    scenarioRow sid runs ≠ sectionMarker := by
  apply ne_marker_at _ 0 '|' ?_ (by decide)
  unfold scenarioRow
  repeat (first | apply drop_head?_append | rfl)

theorem rankLine_ne_marker (i : Nat) (e : RankEntry) : rankLine i e ≠ sectionMarker := by
  apply ne_marker_of_star
  simp only [rankLine, String.data_append]
  exact List.mem_append_left _ (List.mem_append_right _ (by decide))

theorem markerCount_enumRank (l : List RankEntry) :
    ∀ i, markerCount (enumRank i l) = 0 := by
  induction l with
  | nil => intro i; rfl
  | cons e es ih =>
      intro i
      rw [enumRank, markerCount_cons _ _ (rankLine_ne_marker i e), ih]

theorem markerCount_topBlock (title : String) (hT : title ≠ sectionMarker)
    (l : List RankEntry) : markerCount (topBlock title l) = 0 := by
  cases l with
  | nil => rfl
  | cons e es =>
      show markerCount ([title, ""] ++ enumRank 1 (e :: es) ++ [""]) = 0
      rw [markerCount_append, markerCount_append, markerCount_cons _ _ hT,
        markerCount_enumRank]
      decide

theorem markerCount_tableBlock (l : List PromptStats) :
    markerCount (tableBlock l) = 0 := by
  cases l with
  | nil => rfl
  | cons p ps =>
      show markerCount
        (["| Prompt | Pass@N | Dup Rate | JSON | Quality | Runs |",
          "|--------|--------|----------|------|---------|------|"] ++
          ((p :: ps).take 10).map promptRow ++ [""]) = 0
      rw [markerCount_append, markerCount_append,
        markerCount_map_zero _ _ promptRow_ne_marker]
      decide

theorem markerCount_envBlock (e : Option EnvInfo) : markerCount (envBlock e) = 0 := by
  cases e with
  | none => rfl
  | some env =>
      unfold envBlock
      rw [markerCount_cons _ _ (by decide), markerCount_cons _ _ (by decide),
        markerCount_cons _ _ ?h1, markerCount_cons _ _ ?h2, markerCount_cons _ _ ?h3]
      case h1 => exact ne_marker_at _ 0 '-' rfl (by decide)
      case h2 => exact ne_marker_at _ 0 '-' rfl (by decide)
      case h3 => exact ne_marker_at _ 0 '-' rfl (by decide)
      decide

theorem markerCount_suiteSection (a : SuiteAnalysis) :
    markerCount (suiteSection a) = 1 := by
  unfold suiteSection
  rw [markerCount_append, markerCount_append, markerCount_append, markerCount_append,
    markerCount_append, markerCount_append]
  rw [markerCount_cons _ _ ?g1, markerCount_cons _ _ (by decide),
    markerCount_cons _ _ ?g2, markerCount_cons _ _ (by decide),
    markerCount_cons_marker, markerCount_cons _ _ (by decide),
    markerCount_cons _ _ ?g3, markerCount_cons _ _ ?g4, markerCount_cons _ _ ?g5,
    markerCount_cons _ _ ?g6, markerCount_cons _ _ ?g7]
  case g1 => exact ne_marker_at _ 3 ' ' rfl (by decide)
  case g2 => exact ne_marker_at _ 0 '*' rfl (by decide)
  case g3 => exact ne_marker_at _ 0 '-' rfl (by decide)
  case g4 => exact ne_marker_at _ 0 '-' rfl (by decide)
  case g5 => exact ne_marker_at _ 0 '-' rfl (by decide)
  case g6 => exact ne_marker_at _ 0 '-' rfl (by decide)
  case g7 => exact ne_marker_at _ 0 '-' rfl (by decide)
  rw [markerCount_envBlock, markerCount_topBlock _ (by decide),
    markerCount_topBlock _ (by decide), markerCount_topBlock _ (by decide),
    markerCount_tableBlock]
  decide

theorem markerCount_suiteSections (analyses : List SuiteAnalysis) :
    markerCount ((analyses.map suiteSection).flatten) = analyses.length := by
  induction analyses with
  | nil => rfl
  | cons a l ih =>
      rw [List.map_cons, List.flatten_cons, markerCount_append,
        markerCount_suiteSection, ih, List.length_cons]
      omega

theorem bestEntryLines_count (i : Nat) (kv : Option String × PromptAccA) :
    markerCount (bestEntryLines i kv) = 0 := by
  unfold bestEntryLines
  rw [markerCount_cons _ _ ?stars, markerCount_cons _ _ ?k1, markerCount_cons _ _ ?k2,
    markerCount_cons _ _ ?k3, markerCount_cons _ _ ?k4]
  case stars =>
    apply ne_marker_of_star
    simp only [String.data_append]
    exact List.mem_append_left _
      (List.mem_append_left _ (List.mem_append_right _ (by decide)))
  case k1 => exact ne_marker_at _ 0 ' ' rfl (by decide)
  case k2 => exact ne_marker_at _ 0 ' ' rfl (by decide)
  case k3 => exact ne_marker_at _ 0 ' ' rfl (by decide)
  case k4 => exact ne_marker_at _ 0 ' ' rfl (by decide)
  decide

theorem worstEntryLines_count (i : Nat) (kv : Option String × PromptAccA) :
    markerCount (worstEntryLines i kv) = 0 := by
  unfold worstEntryLines
  rw [markerCount_cons _ _ ?stars, markerCount_cons _ _ ?k1,
    markerCount_cons _ _ (by decide)]
  case stars =>
    apply ne_marker_of_star
    simp only [String.data_append]
    exact List.mem_append_left _
      (List.mem_append_left _ (List.mem_append_right _ (by decide)))
  case k1 => exact ne_marker_at _ 0 ' ' rfl (by decide)
  decide

theorem markerCount_enumBest (l : List (Option String × PromptAccA)) :
    ∀ i, markerCount (enumBest i l) = 0 := by
  induction l with
  | nil => intro i; rfl
  | cons kv rest ih =>
      intro i
      rw [enumBest, markerCount_append, bestEntryLines_count, ih]

theorem markerCount_enumWorst (l : List (Option String × PromptAccA)) :
    ∀ i, markerCount (enumWorst i l) = 0 := by
  induction l with
  | nil => intro i; rfl
  | cons kv rest ih =>
      intro i
      rw [enumWorst, markerCount_append, worstEntryLines_count, ih]

theorem markerCount_recsLines (analyses : List SuiteAnalysis) :
    markerCount (recsLines analyses) = 0 := by
  unfold recsLines
  rw [markerCount_append, markerCount_append, markerCount_append,
    markerCount_enumBest, markerCount_enumWorst]
  decide

theorem markerCount_midLines : markerCount midLines = 0 := by decide

theorem markerCount_reportLines (analyses : List SuiteAnalysis) (ts : String) :
    markerCount (reportLines analyses ts) = analyses.length := by
  unfold reportLines
  rw [markerCount_append, markerCount_append, markerCount_append, markerCount_append,
    markerCount_append, markerCount_headerLines, markerCount_execLines,
    markerCount_map_zero _ _ suiteRow_ne_marker, markerCount_midLines,
    markerCount_suiteSections, markerCount_recsLines]
  omega

theorem coordFileSection_count (f : String × Except String CoordData) :
    markerCount (coordFileSection f) = 0 := by
  obtain ⟨nm, res⟩ := f
  cases res with
  | error e =>
      show markerCount
        ["### " ++ nm, "", "(error parsing report: " ++ e ++ ")", ""] = 0
      rw [markerCount_cons _ _ ?e1, markerCount_cons _ _ (by decide),
        markerCount_cons _ _ ?e2]
      case e1 => exact ne_marker_at _ 3 ' ' rfl (by decide)
      case e2 =>
        apply ne_marker_at _ 0 '(' ?_ (by decide)
        repeat (first | apply drop_head?_append | rfl)
      decide
  | ok d =>
      show markerCount
        (["### " ++ nm, "",
          "- **Scenarios:** " ++
            (if d.scenarios = [] then "n/a" else String.intercalate ", " d.scenarios),
          "- **Runs:** " ++ toString (d.totalRuns.getD d.results.length),
          "- **Successful:** " ++
            toString (d.successfulRuns.getD (d.results.filter (fun r => r.passAtN)).length),
          "",
          "| Scenario | Runs | Pass | Avg Unique | Avg DupRate | Escalate |",
          "|---------|------|------|------------|-------------|----------|"] ++
          (by_scenario d.results).map (fun g => scenarioRow g.1 g.2) ++ [""]) = 0
      have hmap : markerCount
          ((by_scenario d.results).map (fun g => scenarioRow g.1 g.2)) = 0 :=
        markerCount_map_zero _ _ (fun g => scenarioRow_ne_marker g.1 g.2)
      rw [markerCount_append, markerCount_append, hmap]
      rw [markerCount_cons _ _ ?c1, markerCount_cons _ _ (by decide),
        markerCount_cons _ _ ?c2, markerCount_cons _ _ ?c3, markerCount_cons _ _ ?c4]
      case c1 => exact ne_marker_at _ 3 ' ' rfl (by decide)
      case c2 => exact ne_marker_at _ 0 '-' rfl (by decide)
      case c3 => exact ne_marker_at _ 0 '-' rfl (by decide)
      case c4 => exact ne_marker_at _ 0 '-' rfl (by decide)
      decide

theorem markerCount_coordLines (files : List (String × Except String CoordData)) :
    markerCount (coordLines files) = 0 := by
  cases files with
  | nil => rfl
  | cons f fs =>
      show markerCount
        (["\n---\n", "## Coordinator Experiments (Appendix)", "\n"] ++
          ((f :: fs).map coordFileSection).flatten) = 0
      rw [markerCount_append, markerCount_flatten_zero _ _ coordFileSection_count]
      decide

theorem markerCount_renderDocument (analyses : List SuiteAnalysis)
    (coords : List (String × Except String CoordData)) (ts : String) :
    markerCount (renderDocument analyses coords ts) = analyses.length := by
  rw [renderDocument, markerCount_append, markerCount_reportLines,
    markerCount_coordLines]
  omega

/-! ### `main`: per-suite processing, console output, exit code -/

/-- The console lines one input file contributes to the analysis phase:
the `Analyzing ...` line, then a success or an error line. -/
def consoleFor : String × Except String RawSuiteReport → List String
  | (sid, Except.ok r) =>
      ["Analyzing " ++ sid ++ "...",
       "  ✅ Success rate: " ++ fmtF 1 (analyze_suite sid r).success_rate ++ "%"]
  | (sid, Except.error e) =>
      ["Analyzing " ++ sid ++ "...", "  ❌ Error: " ++ e]

/-- The analysis one input file contributes: present only when parsing and
analysis succeed. -/
def analyzedFor : String × Except String RawSuiteReport → Option SuiteAnalysis
  | (sid, Except.ok r) => some (analyze_suite sid r)
  | (_, Except.error _) => none

/-- One iteration of the per-suite try/except loop of `main`: a failing
report adds a console error line and is skipped; a succeeding one is
analyzed and appended. -/
def suiteStep (acc : List String × List SuiteAnalysis)
    (inp : String × Except String RawSuiteReport) :
    List String × List SuiteAnalysis :=
  match inp with
  | (sid, Except.ok r) =>
      (acc.1 ++ ["Analyzing " ++ sid ++ "...",
        "  ✅ Success rate: " ++ fmtF 1 (analyze_suite sid r).success_rate ++ "%"],
       acc.2 ++ [analyze_suite sid r])
  | (sid, Except.error e) =>
      (acc.1 ++ ["Analyzing " ++ sid ++ "...", "  ❌ Error: " ++ e], acc.2)

/-- The whole analysis phase of `main`. -/
def suitePhase (inputs : List (String × Except String RawSuiteReport)) :
    List String × List SuiteAnalysis :=
  inputs.foldl suiteStep ([], [])

theorem suitePhase_eq (inputs : List (String × Except String RawSuiteReport)) :
    suitePhase inputs =
      ((inputs.map consoleFor).flatten, inputs.filterMap analyzedFor) := by
  suffices h : ∀ (l : List (String × Except String RawSuiteReport)) (c0 : List String)
      (a0 : List SuiteAnalysis),
      l.foldl suiteStep (c0, a0) =
        (c0 ++ (l.map consoleFor).flatten, a0 ++ l.filterMap analyzedFor) by
    simpa using h inputs [] []
  intro l
  induction l with
  | nil => intro c0 a0; simp
  | cons i rest ih =>
      intro c0 a0
      obtain ⟨sid, res⟩ := i
      cases res with
      | ok r =>
          simp [List.foldl_cons, suiteStep, ih, List.map_cons, List.flatten_cons,
            List.filterMap_cons, consoleFor, analyzedFor, List.append_assoc]
      | error e =>
          simp [List.foldl_cons, suiteStep, ih, List.map_cons, List.flatten_cons,
            List.filterMap_cons, consoleFor, analyzedFor, List.append_assoc]

/-- Status emoji of the final console summary. -/
def statusEmoji (rate : ℚ) : String :=
  if 80 ≤ rate then "✅" else if 60 ≤ rate then "⚠️" else "❌"

/-- The `ANALYSIS SUMMARY` console block printed at the end of `main`. -/
def consoleSummary (analyses : List SuiteAnalysis) : List String :=
  [String.mk (List.replicate 70 '='), "ANALYSIS SUMMARY",
   String.mk (List.replicate 70 '='), "",
   "Total Tests: " ++ commaFmt (totalTests analyses),
   "Overall Success Rate: " ++
     fmtF 1 ((totalPassed analyses : ℚ) / ((max 1 (totalTests analyses) : Nat) : ℚ) * 100) ++
     "%",
   "", "Suite Performance:"] ++
    analyses.map (fun a =>
      "  " ++ statusEmoji a.success_rate ++ " " ++ padRightTo 30 a.suite_name ++ " " ++
        padLeftTo 6 (fmtF 1 a.success_rate) ++ "%") ++
    [""]

/-- The observable outcome of one invocation of `main`: console lines, the
lines of the written document, and the process exit code. -/
structure MainOutcome where
  console : List String
  document : List String
  exitCode : Nat
  deriving DecidableEq

/-- Model of `main`.  The directory scan and JSON deserialization are
collaborators: `suiteInputs` is the ordered `(suiteId, parse result)`
sequence for the discovered `*_report.json` files and `coordInputs` the
same for the coordinator family.  An empty suite list exits 1 without
writing a document; the missing-directory exit is the same collaborator
path and is not modelled separately. -/
def mainModel (dirName : String)
    (suiteInputs : List (String × Except String RawSuiteReport))
    (coordInputs : List (String × Except String CoordData)) (ts : String) :
    MainOutcome :=
  match suiteInputs with
  | [] =>
      { console := ["Error: No report files found in " ++ dirName],
        document := [], exitCode := 1 }
  | i :: rest =>
      let phase := suitePhase (i :: rest)
      let analyses := phase.2
      { console :=
          ["Found " ++ toString (i :: rest).length ++ " unified test reports", ""] ++
            phase.1 ++
            ["", "Generating detailed analysis report..."] ++
            ["✅ Detailed analysis saved to: " ++ dirName ++ "/01_DETAILED_ANALYSIS.md", ""] ++
            consoleSummary analyses
        document := renderDocument analyses coordInputs ts
        exitCode := 0 }

theorem mainModel_document (dirName ts : String)
    (i : String × Except String RawSuiteReport)
    (rest : List (String × Except String RawSuiteReport))
    (coords : List (String × Except String CoordData)) :
    (mainModel dirName (i :: rest) coords ts).document =
      renderDocument ((i :: rest).filterMap analyzedFor) coords ts := by
  show renderDocument (suitePhase (i :: rest)).2 coords ts = _
  rw [suitePhase_eq]

theorem mainModel_console_error (dirName ts : String)
    (i : String × Except String RawSuiteReport)
    (rest : List (String × Except String RawSuiteReport))
    (coords : List (String × Except String CoordData)) (sid e : String)
    (hmem : (sid, Except.error e) ∈ (i :: rest)) :
    ("  ❌ Error: " ++ e) ∈ (mainModel dirName (i :: rest) coords ts).console := by
  have hline : ("  ❌ Error: " ++ e) ∈ (suitePhase (i :: rest)).1 := by
    rw [suitePhase_eq]
    refine List.mem_flatten.mpr
      ⟨consoleFor (sid, Except.error e), List.mem_map_of_mem _ hmem, ?_⟩
    simp [consoleFor]
  exact List.mem_append_left _ (List.mem_append_left _
    (List.mem_append_left _ (List.mem_append_right _ hline)))

/-! ### Claim C3 -/

/-- The only error-indicator line shapes the script ever emits: the console
error line of the per-suite loop and the coordinator-appendix parse-error
stub.  A line is a visible error indicator iff it starts with one of them. -/
def errorIndicatorLine (l : String) : Bool :=
  "(error parsing report: ".data.isPrefixOf l.data ||
    "  ❌ Error: ".data.isPrefixOf l.data

def docHasErrorIndicator (doc : List String) : Bool := doc.any errorIndicatorLine

/-- A well-formed suite report used in the three-file scenario. -/
def c3report : RawSuiteReport :=
  { totalRuns := some 10, successfulRuns := some 7, failedRuns := some 3,
    totalDuration := some 50 }

/-- Three input files: two parse, one is malformed. -/
def c3inputs : List (String × Except String RawSuiteReport) :=
  [("alpha", Except.ok c3report), ("bad", Except.error "boom"),
   ("beta", Except.ok c3report)]

/-- Claim C3 counterexample: with 3 input suite files of which 1 is
malformed, the run completes with exit code 0 and the document holds
analysis sections for exactly the 2 good suites — but the document contains
no visible error indicator: the error is surfaced only on the console.  The
claim's required in-document indicator does not exist. -/
theorem C3_counterexample :
    (mainModel "results" c3inputs [] "TS").exitCode = 0 ∧
    (mainModel "results" c3inputs [] "TS").document =
      renderDocument
        [analyze_suite "alpha" c3report, analyze_suite "beta" c3report] [] "TS" ∧
    markerCount (mainModel "results" c3inputs [] "TS").document = 2 ∧
    docHasErrorIndicator (mainModel "results" c3inputs [] "TS").document = false ∧
    ("  ❌ Error: " ++ "boom") ∈ (mainModel "results" c3inputs [] "TS").console := by
  have hdoc : (mainModel "results" c3inputs [] "TS").document =
      renderDocument
        [analyze_suite "alpha" c3report, analyze_suite "beta" c3report] [] "TS" := rfl
  refine ⟨rfl, hdoc, ?_, ?_, ?_⟩
  · rw [hdoc, markerCount_renderDocument]
    rfl
  · rw [hdoc]
    decide
  · exact mainModel_console_error "results" "TS" _ _ [] "bad" "boom"
      (List.mem_cons_of_mem _ (List.mem_cons_self _ _))

/-- Claim C3 (amended): a malformed report does not abort the run — every
offending suite is skipped, its error indicator is surfaced on the console
(not in the document), processing continues, the document holds analysis
sections for exactly the successfully analyzed suites, and the exit code is
still 0. -/
theorem C3_malformed_isolation (dirName ts : String)
    (inputs : List (String × Except String RawSuiteReport))
    (coords : List (String × Except String CoordData)) (h : inputs ≠ []) :
    (mainModel dirName inputs coords ts).exitCode = 0 ∧
    (mainModel dirName inputs coords ts).document =
      renderDocument (inputs.filterMap analyzedFor) coords ts ∧
    markerCount (mainModel dirName inputs coords ts).document =
      (inputs.filterMap analyzedFor).length ∧
    ∀ sid e, (sid, Except.error e) ∈ inputs →
      ("  ❌ Error: " ++ e) ∈ (mainModel dirName inputs coords ts).console := by
  cases inputs with
  | nil => exact absurd rfl h
  | cons i rest =>
      refine ⟨rfl, mainModel_document dirName ts i rest coords, ?_, ?_⟩
      · rw [mainModel_document dirName ts i rest coords, markerCount_renderDocument]
      · intro sid e hmem
        exact mainModel_console_error dirName ts i rest coords sid e hmem

/-- Witness for amended C3 at the three-file scenario. -/
theorem C3_malformed_isolation_witness :
    c3inputs ≠ [] ∧
      (mainModel "results" c3inputs [] "TS").exitCode = 0 ∧
      markerCount (mainModel "results" c3inputs [] "TS").document =
        (c3inputs.filterMap analyzedFor).length := by
  have h := C3_malformed_isolation "results" "TS" c3inputs [] (by simp [c3inputs])
  exact ⟨by simp [c3inputs], h.1, h.2.2.1⟩
